import Mathlib

/-!
Verification development for the `notan_opacity_problem` repository
(`src/lib.rs`): a thin scene wrapper that renders two textured quads.

The embedding models:
- the math types (`Vec3`, `Vec4`, `Quat`, `Mat4`) over ℚ, following the
  `glam` library that the source uses through `notan::math`
  (`Mat4::from_scale_rotation_translation`, `Mat4::to_cols_array`);
- the graphics context as an explicit state record carrying a buffer-id
  allocator, CPU-visible buffer contents, and an ordered event trace of
  buffer writes and command-list submissions;
- `Mesh::new`, `Mesh::draw_texture`, `Scene::new`, `Scene::render` as
  state-passing functions over that record.  A Rust `.unwrap()` panic on
  asset-load initiation is modelled as `Option.none`; GPU resource
  creation (buffer and pipeline builders) is modelled as succeeding, as
  no claim concerns its failure.
-/

namespace NotanOpacity

/-- 3-component vector over ℚ (models `notan::math::Vec3`, i.e. `glam::Vec3`). -/
structure Vec3 where
  x : ℚ
  y : ℚ
  z : ℚ
deriving DecidableEq, Repr

/-- 4-component vector over ℚ (models `glam::Vec4`). -/
structure Vec4 where
  x : ℚ
  y : ℚ
  z : ℚ
  w : ℚ
deriving DecidableEq, Repr

/-- Quaternion over ℚ (models `notan::math::Quat`). -/
structure Quat where
  x : ℚ
  y : ℚ
  z : ℚ
  w : ℚ
deriving DecidableEq, Repr

/-- `Quat::IDENTITY` from glam: the identity rotation `(0, 0, 0, 1)`. -/
def Quat.IDENTITY : Quat := ⟨0, 0, 0, 1⟩

/-- Column-major 4×4 matrix over ℚ (models `notan::math::Mat4`, i.e.
`glam::Mat4`): four column vectors. -/
structure Mat4 where
  x_axis : Vec4
  y_axis : Vec4
  z_axis : Vec4
  w_axis : Vec4
deriving DecidableEq, Repr

/-- Vector-times-scalar, `glam`'s `Vec4::mul(f32)`. -/
def Vec4.mulScalar (v : Vec4) (s : ℚ) : Vec4 :=
  ⟨v.x * s, v.y * s, v.z * s, v.w * s⟩

/-- Componentwise vector addition. -/
def Vec4.add (a b : Vec4) : Vec4 :=
  ⟨a.x + b.x, a.y + b.y, a.z + b.z, a.w + b.w⟩

/-- Matrix-vector product of a column-major `Mat4` (glam's `Mat4::mul_vec4`):
the linear combination of the columns weighted by the vector components. -/
def Mat4.mulVec4 (m : Mat4) (v : Vec4) : Vec4 :=
  ((m.x_axis.mulScalar v.x).add (m.y_axis.mulScalar v.y)).add
    ((m.z_axis.mulScalar v.z).add (m.w_axis.mulScalar v.w))

/-- Matrix product (glam's `Mat4::mul_mat4`): each column of the result is
the left matrix applied to the corresponding column of the right matrix. -/
def Mat4.mul (a b : Mat4) : Mat4 :=
  ⟨a.mulVec4 b.x_axis, a.mulVec4 b.y_axis, a.mulVec4 b.z_axis, a.mulVec4 b.w_axis⟩

/-- glam's `Mat4::IDENTITY`. -/
def Mat4.IDENTITY : Mat4 :=
  ⟨⟨1, 0, 0, 0⟩, ⟨0, 1, 0, 0⟩, ⟨0, 0, 1, 0⟩, ⟨0, 0, 0, 1⟩⟩

/-- glam's internal `quat_to_axes`: the three rotation columns derived from a
quaternion, transcribed from glam's source. -/
def quat_to_axes (rotation : Quat) : Vec4 × Vec4 × Vec4 :=
  let x := rotation.x
  let y := rotation.y
  let z := rotation.z
  let w := rotation.w
  let x2 := x + x
  let y2 := y + y
  let z2 := z + z
  let xx := x * x2
  let xy := x * y2
  let xz := x * z2
  let yy := y * y2
  let yz := y * z2
  let zz := z * z2
  let wx := w * x2
  let wy := w * y2
  let wz := w * z2
  (⟨1 - (yy + zz), xy + wz, xz - wy, 0⟩,
   ⟨xy - wz, 1 - (xx + zz), yz + wx, 0⟩,
   ⟨xz + wy, yz - wx, 1 - (xx + yy), 0⟩)

/-- glam's `Mat4::from_scale_rotation_translation`, transcribed from glam's
source: rotation columns scaled by the per-axis scale, translation as the
fourth column.  This is what `Mesh::new` calls at `src/lib.rs:82`. -/
def Mat4.from_scale_rotation_translation (scale : Vec3) (rotation : Quat) (translation : Vec3) : Mat4 :=
  let axes := quat_to_axes rotation
  ⟨axes.1.mulScalar scale.x,
   axes.2.1.mulScalar scale.y,
   axes.2.2.mulScalar scale.z,
   ⟨translation.x, translation.y, translation.z, 1⟩⟩

/-- glam's `Mat4::from_quat`: pure rotation matrix from a quaternion. -/
def Mat4.from_quat (rotation : Quat) : Mat4 :=
  let axes := quat_to_axes rotation
  ⟨axes.1, axes.2.1, axes.2.2, ⟨0, 0, 0, 1⟩⟩

/-- glam's `Mat4::from_scale`: nonuniform scale on the diagonal. -/
def Mat4.from_scale (scale : Vec3) : Mat4 :=
  ⟨⟨scale.x, 0, 0, 0⟩, ⟨0, scale.y, 0, 0⟩, ⟨0, 0, scale.z, 0⟩, ⟨0, 0, 0, 1⟩⟩

/-- glam's `Mat4::from_translation`: identity with the translation in the
fourth column. -/
def Mat4.from_translation (translation : Vec3) : Mat4 :=
  ⟨⟨1, 0, 0, 0⟩, ⟨0, 1, 0, 0⟩, ⟨0, 0, 1, 0⟩,
   ⟨translation.x, translation.y, translation.z, 1⟩⟩

/-- glam's `Mat4::to_cols_array`: the 16 entries flattened column-major
(column 0 first, each column top to bottom).  `Scene::render` writes this
array into the uniform buffer at `src/lib.rs:161`. -/
def Mat4.to_cols_array (m : Mat4) : List ℚ :=
  [m.x_axis.x, m.x_axis.y, m.x_axis.z, m.x_axis.w,
   m.y_axis.x, m.y_axis.y, m.y_axis.z, m.y_axis.w,
   m.z_axis.x, m.z_axis.y, m.z_axis.z, m.z_axis.w,
   m.w_axis.x, m.w_axis.y, m.w_axis.z, m.w_axis.w]

/-- glam's `Mat4::from_cols_array` restricted to its 16-entry contract:
rebuilds the matrix from a column-major flat array, `none` when the list
does not have exactly 16 entries. -/
def Mat4.from_cols_array (a : List ℚ) : Option Mat4 :=
  match a with
  | [m00, m01, m02, m03, m10, m11, m12, m13,
     m20, m21, m22, m23, m30, m31, m32, m33] =>
    some ⟨⟨m00, m01, m02, m03⟩, ⟨m10, m11, m12, m13⟩,
          ⟨m20, m21, m22, m23⟩, ⟨m30, m31, m32, m33⟩⟩
  | _ => none

/-! ## Graphics framework boundary

The external `notan` collaborators (`Graphics`, `Assets`, `Renderer`) are
modelled as explicit state: buffer ids are allocated from a counter,
CPU-visible buffer contents live in two maps, and every externally visible
effect (`set_buffer_data`, command-list submission) is appended to an
ordered trace. -/

/-- A texture resource id (the drawable texture behind a loaded asset). -/
abbrev Texture := Nat

/-- A GPU buffer handle (models `notan::Buffer`). -/
abbrev Buffer := Nat

/-- `notan::Asset<Texture>`: a shared handle whose `lock()` yields the
texture once the asynchronous load has completed, `none` while pending. -/
structure Asset where
  lock : Option Texture
deriving DecidableEq, Repr

/-- The asset-loading collaborator: `load_asset(path)` returns a handle, or
fails (modelling the `Err` that `Mesh::new` unwraps) when the asset system
cannot begin loading that path. -/
structure Assets where
  load_asset : String → Option Asset

/-- Vertex attribute formats used by the source (`VertexFormat`). -/
inductive VertexFormat
  | Float32x3
  | Float32x2
deriving DecidableEq, Repr

/-- `notan::VertexInfo`: an ordered list of `(location, format)` attributes. -/
structure VertexInfo where
  attrs : List (Nat × VertexFormat)
deriving DecidableEq, Repr

def VertexInfo.new : VertexInfo := ⟨[]⟩

def VertexInfo.attr (vi : VertexInfo) (location : Nat) (format : VertexFormat) : VertexInfo :=
  ⟨vi.attrs ++ [(location, format)]⟩

/-- The two shader sources of the file, kept as opaque tags; the vertex
shader's behaviour is modelled separately by `vertMain`. -/
inductive ShaderSource
  | vertSrc
  | fragSrc
deriving DecidableEq, Repr

/-- The `VERT` constant (`src/lib.rs:4`). -/
def VERT : ShaderSource := ShaderSource.vertSrc

/-- The `FRAG` constant (`src/lib.rs:26`). -/
def FRAG : ShaderSource := ShaderSource.fragSrc

/-- Blend modes used by the source (`BlendMode::NORMAL`). -/
inductive BlendMode
  | NORMAL
deriving DecidableEq, Repr

/-- Depth compare modes used by the source (`CompareMode::Less`). -/
inductive CompareMode
  | Less
deriving DecidableEq, Repr

/-- `notan::DepthStencil` as configured in `Scene::new`. -/
structure DepthStencil where
  write : Bool
  compare : CompareMode
deriving DecidableEq, Repr

/-- A compiled pipeline: the shader pair and fixed-function state that
`Scene::new` configures through the pipeline builder. -/
structure Pipeline where
  vert : ShaderSource
  frag : ShaderSource
  blend : BlendMode
  vertexInfo : VertexInfo
  textureLocation : Nat × String
  depthStencil : DepthStencil
deriving DecidableEq, Repr

/-- One command recorded into a `Renderer` command list. -/
inductive GpuCmd
  | beginPass
  | setPipeline (pipeline : Pipeline)
  | bindTexture (slot : Nat) (texture : Texture)
  | bindBuffers (buffers : List Buffer)
  | draw (offset : Nat) (count : Nat)
  | endPass
deriving DecidableEq, Repr

/-- An externally visible graphics effect, in program order. -/
inductive GfxEvent
  | setBufferData (buffer : Buffer) (data : List ℚ)
  | submit (commands : List GpuCmd)
deriving DecidableEq, Repr

/-- The graphics-context collaborator: a fresh-buffer-id allocator, the
CPU-visible contents of float buffers (vertex and uniform data) and index
buffers, and the ordered trace of effects. -/
structure Graphics where
  nextBufferId : Nat
  floatData : Nat → List ℚ
  indexData : Nat → List Nat
  trace : List GfxEvent

/-- Pointwise map update used by buffer writes. -/
def setAt {α : Type} (f : Nat → α) (i : Nat) (d : α) : Nat → α :=
  fun j => if j = i then d else f j

/-- `gfx.create_vertex_buffer().with_info(..).with_data(..).build()`,
collapsed into one step: allocates a fresh buffer id and stores the vertex
data.  The builder's failure case is not modelled (no claim concerns it). -/
def Graphics.create_vertex_buffer (gfx : Graphics) (info : VertexInfo) (data : List ℚ) : Buffer × Graphics :=
  let _ := info
  (gfx.nextBufferId,
   { gfx with
     nextBufferId := gfx.nextBufferId + 1
     floatData := setAt gfx.floatData gfx.nextBufferId data })

/-- `gfx.create_index_buffer().with_data(..).build()`, collapsed. -/
def Graphics.create_index_buffer (gfx : Graphics) (data : List Nat) : Buffer × Graphics :=
  (gfx.nextBufferId,
   { gfx with
     nextBufferId := gfx.nextBufferId + 1
     indexData := setAt gfx.indexData gfx.nextBufferId data })

/-- `gfx.create_uniform_buffer(slot, name).build()`, collapsed: allocates a
fresh buffer id with no initial contents. -/
def Graphics.create_uniform_buffer (gfx : Graphics) (slot : Nat) (name : String) : Buffer × Graphics :=
  let _ := slot
  let _ := name
  (gfx.nextBufferId, { gfx with nextBufferId := gfx.nextBufferId + 1 })

/-- `gfx.set_buffer_data(buffer, data)`: overwrites the buffer's contents
and records the write in the trace. -/
def Graphics.set_buffer_data (gfx : Graphics) (buffer : Buffer) (data : List ℚ) : Graphics :=
  { gfx with
    floatData := setAt gfx.floatData buffer data
    trace := gfx.trace ++ [GfxEvent.setBufferData buffer data] }

/-- `gfx.render(&renderer)`: submits one finished command list. -/
def Graphics.render (gfx : Graphics) (renderer : List GpuCmd) : Graphics :=
  { gfx with trace := gfx.trace ++ [GfxEvent.submit renderer] }

/-! ## Mesh (`src/lib.rs:43-112`) -/

/-- The `Mesh` struct (`src/lib.rs:43-51`), field names as in the source. -/
structure Mesh where
  texture : Asset
  vertext_buffer : Buffer
  index_buffer : Buffer
  transformations_buffer : Buffer
  transformations : Mat4

/-- The vertex array literal of `Mesh::new` (`src/lib.rs:63-69`): four
vertices, each `x, y, z, u, v`, flattened in source order. -/
def vertices : List ℚ :=
  [-1, -1, 0,   0, 0,
   -1,  1, 0,   0, 1,
    1,  1, 0,   1, 1,
    1, -1, 0,   1, 0]

/-- One interpreted vertex of the quad: position and UV. -/
structure Vertex where
  pos : Vec3
  uv : ℚ × ℚ
deriving DecidableEq, Repr

/-- The vertex array of `Mesh::new` interpreted through the declared vertex
layout (location 0: three floats of position, location 1: two floats of UV). -/
def quadVertices : List Vertex :=
  [⟨⟨-1, -1, 0⟩, (0, 0)⟩,
   ⟨⟨-1,  1, 0⟩, (0, 1)⟩,
   ⟨⟨ 1,  1, 0⟩, (1, 1)⟩,
   ⟨⟨ 1, -1, 0⟩, (1, 0)⟩]

/-- The index array literal of `Mesh::new` (`src/lib.rs:76`). -/
def indices : List Nat := [0, 1, 2, 2, 3, 0]

/-- `Mesh::new` (`src/lib.rs:55-94`).  `assets.load_asset(path).unwrap()`
panics when the load cannot begin; the panic is modelled as `none`.  On
success the function allocates the vertex, index and uniform buffers in
source order and stores the initial transform. -/
def Mesh.new (gfx : Graphics) (assets : Assets) (path : String) (scale : Vec3) (translation : Vec3) : Option (Mesh × Graphics) :=
  match assets.load_asset path with
  | none => none
  | some texture =>
    let vertex_info := (VertexInfo.new.attr 0 VertexFormat.Float32x3).attr 1 VertexFormat.Float32x2
    let vb := gfx.create_vertex_buffer vertex_info vertices
    let vertext_buffer := vb.1
    let gfx := vb.2
    let ib := gfx.create_index_buffer indices
    let index_buffer := ib.1
    let gfx := ib.2
    let transformations := Mat4.from_scale_rotation_translation scale Quat.IDENTITY translation
    let ub := gfx.create_uniform_buffer 1 "MeshTransformations"
    let transformations_buffer := ub.1
    let gfx := ub.2
    some (⟨texture, vertext_buffer, index_buffer, transformations_buffer, transformations⟩, gfx)

/-- The command list that one `Mesh::draw_texture` call records: begin,
pipeline bind, the conditional texture bind, the three buffer binds in
fixed order, the indexed draw of 6, end. -/
def drawCommands (pipeline : Pipeline) (m : Mesh) : List GpuCmd :=
  [GpuCmd.beginPass, GpuCmd.setPipeline pipeline]
  ++ (match m.texture.lock with
      | some texture => [GpuCmd.bindTexture 0 texture]
      | none => [])
  ++ [GpuCmd.bindBuffers [m.vertext_buffer, m.index_buffer, m.transformations_buffer],
      GpuCmd.draw 0 6, GpuCmd.endPass]

/-- `Mesh::draw_texture` (`src/lib.rs:96-111`): build a renderer command
list step by step in source order, then submit it once via `gfx.render`.
Returns only the updated context (the Rust function returns `()`). -/
def Mesh.draw_texture (m : Mesh) (pipeline : Pipeline) (gfx : Graphics) : Graphics :=
  let renderer : List GpuCmd := []
  let renderer := renderer ++ [GpuCmd.beginPass]
  let renderer := renderer ++ [GpuCmd.setPipeline pipeline]
  let renderer :=
    match m.texture.lock with
    | some texture => renderer ++ [GpuCmd.bindTexture 0 texture]
    | none => renderer
  let renderer := renderer ++
    [GpuCmd.bindBuffers [m.vertext_buffer, m.index_buffer, m.transformations_buffer]]
  let renderer := renderer ++ [GpuCmd.draw 0 6]
  let renderer := renderer ++ [GpuCmd.endPass]
  gfx.render renderer

/-! ## Scene (`src/lib.rs:114-165`) -/

/-- The `Scene` struct (`src/lib.rs:114-119`). -/
structure Scene where
  pipeline : Pipeline
  meshes : List Mesh

/-- `Scene::new` (`src/lib.rs:123-155`): builds the pipeline from the fixed
configuration, then the two configured meshes in order.  A mesh-creation
panic propagates as `none`. -/
def Scene.new (assets : Assets) (gfx : Graphics) : Option (Scene × Graphics) :=
  let depth_test : DepthStencil := ⟨true, CompareMode.Less⟩
  let vertex_info := (VertexInfo.new.attr 0 VertexFormat.Float32x3).attr 1 VertexFormat.Float32x2
  let pipeline : Pipeline :=
    ⟨VERT, FRAG, BlendMode.NORMAL, vertex_info, (0, "u_texture"), depth_test⟩
  match Mesh.new gfx assets "./assets/icon_ethenium.png" ⟨0.1, 0.11, 0.1⟩ ⟨-0.11, -0.01, -0.04⟩ with
  | none => none
  | some (m1, gfx) =>
    match Mesh.new gfx assets "./assets/icon_voice.png" ⟨0.09, 0.09, 0.1⟩ ⟨-0.026, -0.0025, 0.0012⟩ with
    | none => none
    | some (m2, gfx) => some (⟨pipeline, [m1, m2]⟩, gfx)

/-- The per-mesh body of `Scene::render`'s loop: write the flattened
transform into the mesh's uniform buffer, then draw. -/
def renderStep (pipeline : Pipeline) (gfx : Graphics) (mesh : Mesh) : Graphics :=
  let gfx := gfx.set_buffer_data mesh.transformations_buffer mesh.transformations.to_cols_array
  mesh.draw_texture pipeline gfx

/-- `Scene::render` (`src/lib.rs:157-164`): the loop over `scene.meshes` in
list order.  The scene is passed by mutable reference in Rust; the
embedding returns the (unchanged) scene alongside the context. -/
def Scene.render (gfx : Graphics) (scene : Scene) : Graphics × Scene :=
  (scene.meshes.foldl (renderStep scene.pipeline) gfx, scene)

/-! ## Vertex shader (`VERT`, `src/lib.rs:4-24`) -/

/-- The vertex shader's `main`, transcribed from the GLSL in `VERT`:
`v_uv = a_uv; gl_Position = model * vec4(a_pos.x, a_pos.y * -1.0, a_pos.z, 1.0)`.
Returns `(gl_Position, v_uv)`. -/
def vertMain (model : Mat4) (a_pos : Vec3) (a_uv : ℚ × ℚ) : Vec4 × (ℚ × ℚ) :=
  (model.mulVec4 ⟨a_pos.x, a_pos.y * (-1), a_pos.z, 1⟩, a_uv)

/-! ## Derived notions used by the statements -/

/-- The XY corner of the quad at vertex index `i` (out-of-range indices are
irrelevant and map to the origin). -/
def corner (i : Nat) : ℚ × ℚ :=
  match quadVertices.get? i with
  | some v => (v.pos.x, v.pos.y)
  | none => (0, 0)

/-- The `k`-th triangle described by the index buffer: the three corners
selected by `indices[3k]`, `indices[3k+1]`, `indices[3k+2]`. -/
def triangleOf (k : Nat) : (ℚ × ℚ) × (ℚ × ℚ) × (ℚ × ℚ) :=
  (corner (indices.getD (3 * k) 0),
   corner (indices.getD (3 * k + 1) 0),
   corner (indices.getD (3 * k + 2) 0))

/-- Membership of a point in the (filled) triangle `A B C`, expressed by
barycentric coefficients. -/
def inTriangle (A B C p : ℚ × ℚ) : Prop :=
  ∃ u v : ℚ, 0 ≤ u ∧ 0 ≤ v ∧ u + v ≤ 1 ∧
    p.1 = A.1 + u * (B.1 - A.1) + v * (C.1 - A.1) ∧
    p.2 = A.2 + u * (B.2 - A.2) + v * (C.2 - A.2)

/-- `n` consecutive frames: iterate `Scene::render` on the context/scene
pair. -/
def renderN : Nat → Graphics → Scene → Graphics × Scene
  | 0, gfx, scene => (gfx, scene)
  | n + 1, gfx, scene =>
    let r := Scene.render gfx scene
    renderN n r.1 r.2

/-! ## Concrete fixtures (used by witness statements) -/

/-- A fresh graphics context. -/
def gfx0 : Graphics := ⟨0, fun _ => [], fun _ => [], []⟩

/-- An asset handle whose load is still pending. -/
def assetPending : Asset := ⟨none⟩

/-- An asset handle whose load has completed with texture id 7. -/
def assetLoaded : Asset := ⟨some 7⟩

/-- An asset system for which every load begins successfully (pending). -/
def assetsAll : Assets := ⟨fun _ => some assetPending⟩

/-- An asset system that cannot begin any load. -/
def assetsNone : Assets := ⟨fun _ => none⟩

/-- An asset system providing exactly the two configured scene paths. -/
def assetsTwo : Assets :=
  ⟨fun p =>
    if p = "./assets/icon_ethenium.png" then some assetLoaded
    else if p = "./assets/icon_voice.png" then some assetPending
    else none⟩

/-- The mesh produced by `Mesh.new gfx0 assetsAll "p" ⟨1,1,1⟩ ⟨0,0,0⟩`. -/
def mesh0 : Mesh :=
  ⟨assetPending, 0, 1, 2,
   Mat4.from_scale_rotation_translation ⟨1, 1, 1⟩ Quat.IDENTITY ⟨0, 0, 0⟩⟩

/-- `mesh0` with a loaded texture. -/
def mesh0L : Mesh :=
  ⟨assetLoaded, 0, 1, 2,
   Mat4.from_scale_rotation_translation ⟨1, 1, 1⟩ Quat.IDENTITY ⟨0, 0, 0⟩⟩

/-- The graphics context after creating `mesh0` from `gfx0`. -/
def gfx1 : Graphics :=
  ⟨3, setAt (fun _ => []) 0 vertices, setAt (fun _ => []) 1 indices, []⟩

/-- The pipeline configuration of `Scene::new`. -/
def pipeline0 : Pipeline :=
  ⟨VERT, FRAG, BlendMode.NORMAL,
   (VertexInfo.new.attr 0 VertexFormat.Float32x3).attr 1 VertexFormat.Float32x2,
   (0, "u_texture"), ⟨true, CompareMode.Less⟩⟩

/-- A one-mesh scene over `mesh0`. -/
def scene0 : Scene := ⟨pipeline0, [mesh0]⟩

/-! ## Helper lemmas -/

/-- `draw_texture`'s sequential command construction submits exactly
`drawCommands`. -/
theorem draw_texture_eq (m : Mesh) (p : Pipeline) (gfx : Graphics) :
    m.draw_texture p gfx = gfx.render (drawCommands p m) := by
  cases h : m.texture.lock <;> simp [Mesh.draw_texture, drawCommands, h]

/-- The trace produced by the render loop over a mesh list: per mesh, the
uniform write followed by the submission, in list order. -/
theorem foldl_renderStep_trace (l : List Mesh) (p : Pipeline) :
    ∀ gfx : Graphics,
      (l.foldl (renderStep p) gfx).trace =
        gfx.trace ++ l.flatMap (fun m =>
          [GfxEvent.setBufferData m.transformations_buffer m.transformations.to_cols_array,
           GfxEvent.submit (drawCommands p m)]) := by
  induction l with
  | nil => intro gfx; simp
  | cons m l ih =>
    intro gfx
    rw [List.foldl_cons, ih]
    simp [renderStep, draw_texture_eq, Graphics.render, Graphics.set_buffer_data]

/-- The render loop allocates no buffers, writes no index buffer, and
writes no float buffer other than the meshes' uniform buffers. -/
theorem foldl_renderStep_preserves (l : List Mesh) (p : Pipeline) :
    ∀ gfx : Graphics,
      (l.foldl (renderStep p) gfx).nextBufferId = gfx.nextBufferId ∧
      (l.foldl (renderStep p) gfx).indexData = gfx.indexData ∧
      ∀ b, b ∉ l.map Mesh.transformations_buffer →
        (l.foldl (renderStep p) gfx).floatData b = gfx.floatData b := by
  induction l with
  | nil => intro gfx; exact ⟨rfl, rfl, fun b _ => rfl⟩
  | cons m l ih =>
    intro gfx
    obtain ⟨i1, i2, i3⟩ := ih (renderStep p gfx m)
    refine ⟨by rw [List.foldl_cons, i1]; rfl, by rw [List.foldl_cons, i2]; rfl, ?_⟩
    intro b hb
    rw [List.map_cons, List.mem_cons, not_or] at hb
    rw [List.foldl_cons, i3 b hb.2]
    show (renderStep p gfx m).floatData b = gfx.floatData b
    simp [renderStep, draw_texture_eq, Graphics.render, Graphics.set_buffer_data, setAt, hb.1]

/-! ## Claims -/

/-- C1: for every scale `s` and translation `t`, the initial transform
stored by `Mesh::new` equals the 4×4 matrix composing the scale, the
identity rotation and the translation — the scale-rotation-translation
composition the spec writes `scale ∘ identity-rotation ∘ translation`,
with the scale applied to a point first and the translation last (as the
second conjunct makes explicit: the translation column is not scaled). -/
theorem mesh_initial_transform_composition (s t : Vec3) :
    Mat4.from_scale_rotation_translation s Quat.IDENTITY t =
      (Mat4.from_translation t).mul ((Mat4.from_quat Quat.IDENTITY).mul (Mat4.from_scale s)) ∧
    ∀ p : Vec3,
      (Mat4.from_scale_rotation_translation s Quat.IDENTITY t).mulVec4 ⟨p.x, p.y, p.z, 1⟩ =
        ⟨s.x * p.x + t.x, s.y * p.y + t.y, s.z * p.z + t.z, 1⟩ := by
  constructor
  · cases s; cases t
    simp only [Mat4.from_scale_rotation_translation, Mat4.from_translation, Mat4.from_quat,
      Mat4.from_scale, Mat4.mul, Mat4.mulVec4, Vec4.mulScalar, Vec4.add, quat_to_axes,
      Quat.IDENTITY, Mat4.mk.injEq, Vec4.mk.injEq]
    norm_num
  · intro p
    cases s; cases t; cases p
    simp only [Mat4.from_scale_rotation_translation, Mat4.mulVec4, Vec4.mulScalar, Vec4.add,
      quat_to_axes, Quat.IDENTITY, Vec4.mk.injEq]
    norm_num

/-- C2: `Scene::render` visits the meshes in list order; for each mesh it
first records the write of the mesh's current transform, flattened by
`to_cols_array` (16 entries, column-major), into that mesh's uniform
buffer, and then records that mesh's draw submission. -/
theorem render_visits_meshes_in_order (gfx : Graphics) (scene : Scene) :
    (Scene.render gfx scene).1.trace =
      gfx.trace ++ scene.meshes.flatMap (fun m =>
        [GfxEvent.setBufferData m.transformations_buffer m.transformations.to_cols_array,
         GfxEvent.submit (drawCommands scene.pipeline m)]) ∧
    ∀ m : Mat4, m.to_cols_array.length = 16 := by
  exact ⟨foldl_renderStep_trace scene.meshes scene.pipeline gfx,
         fun m => rfl⟩

/-- C3: if the texture asset handle reports "not loaded" at draw time the
draw skips the texture bind and still completes — it performs the very
same submission with every other step unchanged and the overall effect on
the context intact — while a loaded handle makes the draw bind the
texture at slot 0. -/
theorem draw_texture_loading_cases (m : Mesh) (p : Pipeline) (gfx : Graphics) :
    (m.texture.lock = none →
      (m.draw_texture p gfx =
        { gfx with trace := gfx.trace ++ [GfxEvent.submit
            [GpuCmd.beginPass, GpuCmd.setPipeline p,
             GpuCmd.bindBuffers [m.vertext_buffer, m.index_buffer, m.transformations_buffer],
             GpuCmd.draw 0 6, GpuCmd.endPass]] }) ∧
      ∀ slot texture, GpuCmd.bindTexture slot texture ∉ drawCommands p m) ∧
    (∀ texture, m.texture.lock = some texture →
      m.draw_texture p gfx =
        { gfx with trace := gfx.trace ++ [GfxEvent.submit
            [GpuCmd.beginPass, GpuCmd.setPipeline p, GpuCmd.bindTexture 0 texture,
             GpuCmd.bindBuffers [m.vertext_buffer, m.index_buffer, m.transformations_buffer],
             GpuCmd.draw 0 6, GpuCmd.endPass]] }) := by
  constructor
  · intro h
    constructor
    · simp [Mesh.draw_texture, Graphics.render, h]
    · intro slot texture
      simp [drawCommands, h]
  · intro texture h
    simp [Mesh.draw_texture, Graphics.render, h]

/-- Witness for C3: the pending-texture mesh `mesh0` draws without a
texture bind, and the loaded-texture mesh `mesh0L` binds texture 7. -/
theorem draw_texture_loading_cases_witness :
    mesh0.texture.lock = none ∧
    mesh0.draw_texture pipeline0 gfx1 =
      { gfx1 with trace := gfx1.trace ++ [GfxEvent.submit
          [GpuCmd.beginPass, GpuCmd.setPipeline pipeline0,
           GpuCmd.bindBuffers [mesh0.vertext_buffer, mesh0.index_buffer, mesh0.transformations_buffer],
           GpuCmd.draw 0 6, GpuCmd.endPass]] } ∧
    mesh0L.texture.lock = some 7 ∧
    mesh0L.draw_texture pipeline0 gfx1 =
      { gfx1 with trace := gfx1.trace ++ [GfxEvent.submit
          [GpuCmd.beginPass, GpuCmd.setPipeline pipeline0, GpuCmd.bindTexture 0 7,
           GpuCmd.bindBuffers [mesh0L.vertext_buffer, mesh0L.index_buffer, mesh0L.transformations_buffer],
           GpuCmd.draw 0 6, GpuCmd.endPass]] } :=
  ⟨rfl,
   ((draw_texture_loading_cases mesh0 pipeline0 gfx1).1 rfl).1,
   rfl,
   (draw_texture_loading_cases mesh0L pipeline0 gfx1).2 7 rfl⟩

/-- C5: the vertex shader applies the model matrix to the input position
with its Y component negated; the quad vertex carrying UV `(0,0)` has
input `y = -1`, and under the identity model matrix the shader places it
at vertical clip position `+1`. -/
theorem vertex_shader_y_flip :
    (∀ (model : Mat4) (pos : Vec3) (uv : ℚ × ℚ),
      (vertMain model pos uv).1 = model.mulVec4 ⟨pos.x, -pos.y, pos.z, 1⟩) ∧
    quadVertices.get? 0 = some ⟨⟨-1, -1, 0⟩, (0, 0)⟩ ∧
    (vertMain Mat4.IDENTITY ⟨-1, -1, 0⟩ (0, 0)).1.y = 1 := by
  refine ⟨fun model pos uv => ?_, rfl, ?_⟩
  · simp [vertMain, mul_neg_one]
  · norm_num [vertMain, Mat4.IDENTITY, Mat4.mulVec4, Vec4.mulScalar, Vec4.add]

/-- C6: one `draw_texture` call changes the context by exactly one
submission whose command list is: begin pass, bind pipeline, the
conditional texture bind, the vertex/index/uniform buffer bind in that
fixed order, one indexed draw of 6 indices, end pass; everything else in
the context is untouched and no value is returned besides the context. -/
theorem draw_call_structure (m : Mesh) (p : Pipeline) (gfx : Graphics) :
    m.draw_texture p gfx =
      { gfx with trace := gfx.trace ++ [GfxEvent.submit (
          [GpuCmd.beginPass, GpuCmd.setPipeline p]
          ++ (match m.texture.lock with
              | some texture => [GpuCmd.bindTexture 0 texture]
              | none => [])
          ++ [GpuCmd.bindBuffers [m.vertext_buffer, m.index_buffer, m.transformations_buffer],
              GpuCmd.draw 0 6, GpuCmd.endPass])] } := by
  cases h : m.texture.lock <;> simp [Mesh.draw_texture, Graphics.render, h]

/-- C7: flattening a 4×4 matrix to the 16-float column-major array and
rebuilding a matrix from those floats gives back the source matrix
exactly. -/
theorem transform_cols_array_roundtrip (m : Mat4) :
    Mat4.from_cols_array m.to_cols_array = some m := by
  rcases m with ⟨⟨_, _, _, _⟩, ⟨_, _, _, _⟩, ⟨_, _, _, _⟩, ⟨_, _, _, _⟩⟩
  rfl

/-- C4: every successfully created mesh has a vertex buffer holding
exactly the four corner/UV vertices of the source literal and an index
buffer holding exactly `0,1,2,2,3,0`; those six indices describe two
triangles that together cover the unit quad `[-1,1] × [-1,1]`. -/
theorem mesh_quad_geometry (gfx : Graphics) (assets : Assets) (path : String)
    (s t : Vec3) (m : Mesh) (gfx2 : Graphics)
    (h : Mesh.new gfx assets path s t = some (m, gfx2)) :
    gfx2.floatData m.vertext_buffer = vertices ∧
    gfx2.indexData m.index_buffer = indices ∧
    vertices = quadVertices.flatMap (fun v => [v.pos.x, v.pos.y, v.pos.z, v.uv.1, v.uv.2]) ∧
    quadVertices.map Vertex.pos = [⟨-1, -1, 0⟩, ⟨-1, 1, 0⟩, ⟨1, 1, 0⟩, ⟨1, -1, 0⟩] ∧
    quadVertices.map Vertex.uv = [(0, 0), (0, 1), (1, 1), (1, 0)] ∧
    quadVertices.length = 4 ∧
    indices = [0, 1, 2, 2, 3, 0] ∧
    indices.length = 6 ∧
    (∀ q : ℚ × ℚ, -1 ≤ q.1 → q.1 ≤ 1 → -1 ≤ q.2 → q.2 ≤ 1 →
      inTriangle (triangleOf 0).1 (triangleOf 0).2.1 (triangleOf 0).2.2 q ∨
      inTriangle (triangleOf 1).1 (triangleOf 1).2.1 (triangleOf 1).2.2 q) := by
  have ht0 : triangleOf 0 = ((-1, -1), (-1, 1), (1, 1)) := rfl
  have ht1 : triangleOf 1 = ((1, 1), (1, -1), (-1, -1)) := rfl
  cases hl : assets.load_asset path with
  | none => rw [Mesh.new, hl] at h; exact absurd h (by simp)
  | some a =>
    rw [Mesh.new, hl] at h
    simp only [Graphics.create_vertex_buffer, Graphics.create_index_buffer,
      Graphics.create_uniform_buffer, Option.some.injEq, Prod.mk.injEq] at h
    obtain ⟨hm, hg⟩ := h
    subst hm
    subst hg
    refine ⟨by simp [setAt], by simp [setAt], by decide, by decide, by decide, by decide,
      rfl, rfl, ?_⟩
    intro q h1 h2 h3 h4
    rw [ht0, ht1]
    rcases le_or_lt q.1 q.2 with hc | hc
    · left
      exact ⟨(q.2 - q.1) / 2, (q.1 + 1) / 2, by linarith, by linarith, by linarith,
        by ring, by ring⟩
    · right
      exact ⟨(q.1 - q.2) / 2, (1 - q.1) / 2, by linarith, by linarith, by linarith,
        by ring, by ring⟩

/-- Witness for C4: creating a mesh from a fresh context yields the quad
data in its buffers, and the point `(0,0)` lies in one of the two indexed
triangles. -/
theorem mesh_quad_geometry_witness :
    gfx1.floatData mesh0.vertext_buffer = vertices ∧
    gfx1.indexData mesh0.index_buffer = indices ∧
    (inTriangle (triangleOf 0).1 (triangleOf 0).2.1 (triangleOf 0).2.2 ((0 : ℚ), (0 : ℚ)) ∨
     inTriangle (triangleOf 1).1 (triangleOf 1).2.1 (triangleOf 1).2.2 ((0 : ℚ), (0 : ℚ))) := by
  have h := mesh_quad_geometry gfx0 assetsAll "p" ⟨1, 1, 1⟩ ⟨0, 0, 0⟩ mesh0 gfx1 rfl
  exact ⟨h.1, h.2.1,
    h.2.2.2.2.2.2.2.2 (0, 0) (by norm_num) (by norm_num) (by norm_num) (by norm_num)⟩

/-- C8: when both configured asset loads begin successfully, `Scene::new`
produces a scene whose mesh list has length exactly 2, in configured
order: the first mesh holds the asset handle returned for
`./assets/icon_ethenium.png` and the transform built from scale
`(0.1, 0.11, 0.1)` and translation `(-0.11, -0.01, -0.04)`; the second
holds the handle for `./assets/icon_voice.png` and the transform built
from scale `(0.09, 0.09, 0.1)` and translation
`(-0.026, -0.0025, 0.0012)`. -/
theorem scene_two_configured_meshes (assets : Assets) (gfx : Graphics) (a1 a2 : Asset)
    (h1 : assets.load_asset "./assets/icon_ethenium.png" = some a1)
    (h2 : assets.load_asset "./assets/icon_voice.png" = some a2) :
    Option.map (fun r => r.1.meshes.map (fun m => (m.texture, m.transformations)))
        (Scene.new assets gfx) =
      some [(a1, Mat4.from_scale_rotation_translation ⟨0.1, 0.11, 0.1⟩ Quat.IDENTITY
              ⟨-0.11, -0.01, -0.04⟩),
            (a2, Mat4.from_scale_rotation_translation ⟨0.09, 0.09, 0.1⟩ Quat.IDENTITY
              ⟨-0.026, -0.0025, 0.0012⟩)] ∧
    Option.map (fun r => r.1.meshes.length) (Scene.new assets gfx) = some 2 := by
  constructor <;> simp [Scene.new, Mesh.new, h1, h2]

/-- Witness for C8: an asset system providing exactly the two configured
paths. -/
theorem scene_two_configured_meshes_witness :
    Option.map (fun r => r.1.meshes.map (fun m => (m.texture, m.transformations)))
        (Scene.new assetsTwo gfx0) =
      some [(assetLoaded, Mat4.from_scale_rotation_translation ⟨0.1, 0.11, 0.1⟩ Quat.IDENTITY
              ⟨-0.11, -0.01, -0.04⟩),
            (assetPending, Mat4.from_scale_rotation_translation ⟨0.09, 0.09, 0.1⟩ Quat.IDENTITY
              ⟨-0.026, -0.0025, 0.0012⟩)] ∧
    Option.map (fun r => r.1.meshes.length) (Scene.new assetsTwo gfx0) = some 2 :=
  scene_two_configured_meshes assetsTwo gfx0 assetLoaded assetPending (by decide) (by decide)

/-- C9: when the asset system cannot begin loading the image at the given
path, `Mesh::new` aborts — the embedding's `none`, modelling the
`unwrap()` panic — and returns neither a mesh nor an error value. -/
theorem mesh_new_aborts_on_load_failure (gfx : Graphics) (assets : Assets) (path : String)
    (s t : Vec3) (h : assets.load_asset path = none) :
    Mesh.new gfx assets path s t = none := by
  simp [Mesh.new, h]

/-- Witness for C9: an asset system that can begin no load. -/
theorem mesh_new_aborts_on_load_failure_witness :
    Mesh.new gfx0 assetsNone "./assets/icon_ethenium.png" ⟨1, 1, 1⟩ ⟨0, 0, 0⟩ = none :=
  mesh_new_aborts_on_load_failure gfx0 assetsNone "./assets/icon_ethenium.png"
    ⟨1, 1, 1⟩ ⟨0, 0, 0⟩ rfl

/-- C10: any number of `Scene::render` calls leaves the scene — every
mesh's CPU-side transform and its vertex/index/uniform buffer handles —
exactly as constructed; the context's buffer allocator and index buffers
are untouched and the only float-buffer contents written are those of the
meshes' uniform buffers. -/
theorem render_never_mutates_meshes (n : Nat) (gfx : Graphics) (scene : Scene) :
    (renderN n gfx scene).2 = scene ∧
    (renderN n gfx scene).1.nextBufferId = gfx.nextBufferId ∧
    (renderN n gfx scene).1.indexData = gfx.indexData ∧
    ∀ b, b ∉ scene.meshes.map Mesh.transformations_buffer →
      (renderN n gfx scene).1.floatData b = gfx.floatData b := by
  induction n generalizing gfx with
  | zero => exact ⟨rfl, rfl, rfl, fun b _ => rfl⟩
  | succ n ih =>
    obtain ⟨p1, p2, p3⟩ := foldl_renderStep_preserves scene.meshes scene.pipeline gfx
    obtain ⟨i1, i2, i3, i4⟩ := ih (scene.meshes.foldl (renderStep scene.pipeline) gfx)
    have hstep : renderN (n + 1) gfx scene =
        renderN n (scene.meshes.foldl (renderStep scene.pipeline) gfx) scene := rfl
    rw [hstep]
    exact ⟨i1, by rw [i2, p1], by rw [i3, p2], fun b hb => by rw [i4 b hb, p3 b hb]⟩

/-- Witness for C10: two frames over the one-mesh scene `scene0` leave the
scene unchanged and do not touch float buffer 10. -/
theorem render_never_mutates_meshes_witness :
    (renderN 2 gfx1 scene0).2 = scene0 ∧
    (renderN 2 gfx1 scene0).1.floatData 10 = gfx1.floatData 10 := by
  have h := render_never_mutates_meshes 2 gfx1 scene0
  exact ⟨h.1, h.2.2.2 10 (by decide)⟩

end NotanOpacity
